import Mathlib

/-!
Shallow embedding of the `lasr-archive` crate: an archival persistence facade
(`ArchiveStore`) over a MongoDB backend adapter (`MongoDBBackend`).

The MongoDB driver is an external collaborator; it is modelled by a `Driver`
environment (which connection strings parse, whether client construction,
insert and find succeed) together with an explicit `MongoState` holding, per
(database name, collection name) pair, the list of stored documents.  Each
stored document carries a BSON `_id`: the driver generates a fresh `ObjectId`
on insert.  MongoDB's find-filter semantics for `\x7b "_id": "$exists" \x7d` is an
equality match of the `_id` field against the literal BSON string `"$exists"`
(a plain string in value position is never an operator).

Rust `panic!` is modelled by a dedicated `CallResult.panicked` outcome;
`anyhow` error chains are modelled by a list of context strings wrapped
around a root message.
-/

namespace LasrArchive

/-- `ArchiveRecordType` from `lib.rs`: the closed enumeration of record
categories supported for archiving. -/
inductive ArchiveRecordType where
  | Account
  | TransactionBatch
deriving DecidableEq, Repr

/-- `ArchiveBackends` from `lib.rs`: the closed enumeration of supported
backends (currently only MongoDB). -/
inductive ArchiveBackends where
  | MongoDB
deriving DecidableEq, Repr

/-- `ACCOUNT_COLLECTION` constant from `mongodb_archive.rs`. -/
def ACCOUNT_COLLECTION : String := "accounts"

/-- `TRANSACTION_COLLECTION` constant from `mongodb_archive.rs`. -/
def TRANSACTION_COLLECTION : String := "transaction_data"

/-- `MongoDBBackend` struct from `mongodb_archive.rs`. -/
structure MongoDBBackend where
  uri : String
  datastore : String
deriving DecidableEq, Repr

/-- `ArchiveStore` struct from `lib.rs`: uri, backend selector, datastore. -/
structure ArchiveStore where
  uri : String
  backend : ArchiveBackends
  datastore : String
deriving DecidableEq, Repr

/-- A BSON `_id` value: either a driver-generated ObjectId (numbered here)
or a BSON string. -/
inductive BsonId where
  | objectId (n : Nat)
  | strId (s : String)
deriving DecidableEq, Repr

/-- Rendering of a BSON id to a display string, as
`res.inserted_id.to_string()` does in `create`. -/
def BsonId.display : BsonId → String
  | .objectId n => "ObjectId(\"" ++ toString n ++ "\")"
  | .strId s => "\"" ++ s ++ "\""

/-- Whether an `_id` is a driver-generated ObjectId. -/
def BsonId.isObjectId : BsonId → Bool
  | .objectId _ => true
  | .strId _ => false

/-- A stored MongoDB document: its `_id` and its (serialised) body. -/
structure MongoDoc (β : Type) where
  docId : BsonId
  body : β
deriving DecidableEq, Repr

/-- The state of the external MongoDB server: a fresh-ObjectId counter and,
keyed by (database name, collection name), the stored documents in insertion
order. -/
structure MongoState (β : Type) where
  nextObjectId : Nat
  colls : List ((String × String) × List (MongoDoc β))
deriving DecidableEq, Repr

/-- A MongoDB server with no documents stored. -/
def emptyMongoState (β : Type) : MongoState β := ⟨0, []⟩

/-- Documents currently stored in database `db`, collection `coll`. -/
def MongoState.docsIn (st : MongoState β) (db coll : String) :
    List (MongoDoc β) :=
  match st.colls.find? (fun p => p.1 == (db, coll)) with
  | some p => p.2
  | none => []

/-- Append a document to the named collection of the named database
(creating the collection entry if absent). -/
def addDoc (db coll : String) (d : MongoDoc β) :
    List ((String × String) × List (MongoDoc β)) →
    List ((String × String) × List (MongoDoc β))
  | [] => [((db, coll), [d])]
  | (k, ds) :: rest =>
      if k == (db, coll) then (k, ds ++ [d]) :: rest
      else (k, ds) :: addDoc db coll d rest

/-- Server-side effect of `insert_one`: store the document and advance the
ObjectId counter. -/
def MongoState.insertDoc (st : MongoState β) (db coll : String)
    (d : MongoDoc β) : MongoState β :=
  ⟨st.nextObjectId + 1, addDoc db coll d st.colls⟩

/-- The external MongoDB driver, as an oracle: which connection strings
`ClientOptions::parse` accepts, and whether client construction, insert and
find succeed on this call. -/
structure Driver where
  parseOk : String → Bool
  clientOk : Bool
  insertOk : Bool
  findOk : Bool

/-- An `anyhow` error: the chain of `.context(...)` strings (outermost
first) around a root error message. -/
structure ArchiveError where
  contexts : List String
  root : String
deriving DecidableEq, Repr

/-- Outcome of a backend call: a value, an `anyhow` error, or a `panic!`
(which in Rust terminates the process). -/
inductive CallResult (α : Type) where
  | ok (a : α)
  | err (e : ArchiveError)
  | panicked (msg : String)
deriving DecidableEq, Repr

/-- `anyhow::Context::context`: wrap an error with one more context string;
`Ok` passes through, and a panic never returns so no context applies. -/
def CallResult.context (r : CallResult α) (msg : String) : CallResult α :=
  match r with
  | .ok a => .ok a
  | .err e => .err ⟨msg :: e.contexts, e.root⟩
  | .panicked m => .panicked m

/-- Outcome of the collection-resolution step in `create`/`find_all`. -/
inductive CollResolution where
  | resolved (name : String)
  | panicked (msg : String)
deriving DecidableEq, Repr

/-- The `if let` chain of `mongodb_archive.rs` lines 51-57 and 95-101: test
for `Account`, then for `TransactionBatch`, and otherwise
`panic!("Invalid archive record type")`.  The two Booleans are the outcomes
of the two pattern tests. -/
def resolveCollection (isAccount isTransactionBatch : Bool) : CollResolution :=
  if isAccount then .resolved ACCOUNT_COLLECTION
  else if isTransactionBatch then .resolved TRANSACTION_COLLECTION
  else .panicked "Invalid archive record type"

/-- Outcome of the pattern test `if let ArchiveRecordType::Account = rec_type`. -/
def ArchiveRecordType.isAccount : ArchiveRecordType → Bool
  | .Account => true
  | .TransactionBatch => false

/-- Outcome of the pattern test
`if let ArchiveRecordType::TransactionBatch = rec_type`. -/
def ArchiveRecordType.isTransactionBatch : ArchiveRecordType → Bool
  | .Account => false
  | .TransactionBatch => true

/-- The collection name a record type resolves to (derived shorthand; see
`resolveCollection_eq` for agreement with the embedded branch chain). -/
def collNameOf : ArchiveRecordType → String
  | .Account => ACCOUNT_COLLECTION
  | .TransactionBatch => TRANSACTION_COLLECTION

/-- `MongoDBBackend::create` (`mongodb_archive.rs` lines 29-69): parse the
URI, build the client, resolve the collection for the record type, insert
the serialised record, and return the driver-issued id as a string.
`ser` is the caller payload type's BSON serialisation. -/
def MongoDBBackend.create (b : MongoDBBackend) (env : Driver)
    (recType : ArchiveRecordType) (ser : α → β) (rec : α)
    (st : MongoState β) : CallResult (String × MongoState β) :=
  if ¬ env.parseOk b.uri then
    .err ⟨["Failed to parse MongoDB URI: '" ++ b.uri ++ "'"],
          "mongodb: invalid connection string"⟩
  else if ¬ env.clientOk then
    .err ⟨["Failed to set MongoDB client options"],
          "mongodb: client construction failure"⟩
  else
    match resolveCollection recType.isAccount recType.isTransactionBatch with
    | .panicked msg => .panicked msg
    | .resolved collName =>
        if ¬ env.insertOk then
          .err ⟨["Failed to insert document"], "mongodb: insert failure"⟩
        else
          let newId := BsonId.objectId st.nextObjectId
          .ok (newId.display,
               st.insertDoc b.datastore collName ⟨newId, ser rec⟩)

/-- The find filter built at `mongodb_archive.rs` line 103,
`doc! \x7b "_id": "$exists" \x7d`: a plain string in value position is an
equality match, so a document matches exactly when its `_id` is the BSON
string `"$exists"`. -/
def filterMatches (d : MongoDoc β) : Bool :=
  d.docId == BsonId.strId "$exists"

/-- The documents a `find` with that filter returns from the collection the
record type resolves to. -/
def queriedDocs (b : MongoDBBackend) (recType : ArchiveRecordType)
    (st : MongoState β) : List (MongoDoc β) :=
  (st.docsIn b.datastore (collNameOf recType)).filter filterMatches

/-- `cursor.try_collect()`: deserialise the returned documents in order,
aborting on the first failure. -/
def collectDeser (deser : β → Except String α) :
    List (MongoDoc β) → Except String (List α)
  | [] => .ok []
  | d :: ds =>
      match deser d.body with
      | .error m => .error m
      | .ok a =>
          match collectDeser deser ds with
          | .error m => .error m
          | .ok as => .ok (a :: as)

/-- `MongoDBBackend::find_all` (`mongodb_archive.rs` lines 73-123): parse
the URI, build the client, resolve the collection, run `find` with the
`\x7b "_id": "$exists" \x7d` filter and collect the cursor, deserialising each
document into the caller's target type.  The deserialisation error at line
112 propagates via `?` with no added context. -/
def MongoDBBackend.findAll (b : MongoDBBackend) (env : Driver)
    (recType : ArchiveRecordType) (deser : β → Except String α)
    (st : MongoState β) : CallResult (List α) :=
  if ¬ env.parseOk b.uri then
    .err ⟨["Failed to parse MongoDB URI: '" ++ b.uri ++ "'"],
          "mongodb: invalid connection string"⟩
  else if ¬ env.clientOk then
    .err ⟨["Failed to set MongoDB client options"],
          "mongodb: client construction failure"⟩
  else
    match resolveCollection recType.isAccount recType.isTransactionBatch with
    | .panicked msg => .panicked msg
    | .resolved collName =>
        if ¬ env.findOk then
          .err ⟨["Failed to find documents"], "mongodb: query failure"⟩
        else
          match collectDeser deser
              ((st.docsIn b.datastore collName).filter filterMatches) with
          | .error m => .err ⟨[], m⟩
          | .ok vals => .ok vals

/-- The fresh backend adapter `ArchiveStore::create`/`find_all` construct on
every call (`lib.rs` lines 35-38 and 56-59). -/
def ArchiveStore.mkMongoBackend (s : ArchiveStore) : MongoDBBackend :=
  ⟨s.uri, s.datastore⟩

/-- `ArchiveStore::create` (`lib.rs` lines 24-45): dispatch on the backend
enumeration, build a fresh adapter from the store's fields, delegate, and
wrap errors with the "Creating new MongoDB blob." context.  The store is
returned alongside the result, mirroring the `&mut self` receiver. -/
def ArchiveStore.create (s : ArchiveStore) (env : Driver)
    (recType : ArchiveRecordType) (ser : α → β) (rec : α)
    (st : MongoState β) :
    CallResult (String × MongoState β) × ArchiveStore :=
  match s.backend with
  | .MongoDB =>
      ((s.mkMongoBackend.create env recType ser rec st).context
        "Creating new MongoDB blob.", s)

/-- `ArchiveStore::find_all` (`lib.rs` lines 46-66): dispatch, fresh
adapter, delegate, wrap errors with the "Retrieving blobs from MongoDB"
context. -/
def ArchiveStore.findAll (s : ArchiveStore) (env : Driver)
    (recType : ArchiveRecordType) (deser : β → Except String α)
    (st : MongoState β) : CallResult (List α) × ArchiveStore :=
  match s.backend with
  | .MongoDB =>
      ((s.mkMongoBackend.findAll env recType deser st).context
        "Retrieving blobs from MongoDB", s)

/-- `Display` for `ArchiveBackends` (`lib.rs` lines 102-108). -/
def displayBackends : ArchiveBackends → String
  | .MongoDB => "MongoDB"

/-- `Display` for `ArchiveStore` (`lib.rs` lines 69-77):
`"URI: \x7b\x7d, Backend: \x7b\x7d, Datastore: \x7b\x7d"` over uri, backend, datastore. -/
def displayArchiveStore (s : ArchiveStore) : String :=
  "URI: " ++ s.uri ++ ", Backend: " ++ displayBackends s.backend ++
    ", Datastore: " ++ s.datastore

/-- Whether deserialising a document's body fails. -/
def deserFails (deser : β → Except String α) (d : MongoDoc β) : Bool :=
  match deser d.body with
  | .error _ => true
  | .ok _ => false

/-- A backend state populated solely through `create`: every stored
document's `_id` is a driver-generated ObjectId. -/
def CreatedOnly (st : MongoState β) : Prop :=
  ∀ p ∈ st.colls, ∀ d ∈ p.2, d.docId.isObjectId = true

instance (st : MongoState β) : Decidable (CreatedOnly st) :=
  inferInstanceAs
    (Decidable (∀ p ∈ st.colls, ∀ d ∈ p.2, d.docId.isObjectId = true))

/-! ### Concrete instances used for evaluations and witnesses -/

/-- A driver for which every phase succeeds. -/
def okDriver : Driver := ⟨fun _ => true, true, true, true⟩

/-- A driver that rejects every connection string at the parse phase. -/
def failDriver : Driver := ⟨fun _ => false, true, true, true⟩

/-- A concrete backend adapter. -/
def backendW : MongoDBBackend := ⟨"mongodb://localhost:27017", "lasr_archive"⟩

/-! ### Helper lemmas -/

/-- For every actual record type, the `if let` chain resolves a collection:
the `panic!` branch is dead code because the enumeration is closed. -/
theorem resolveCollection_eq (t : ArchiveRecordType) :
    resolveCollection t.isAccount t.isTransactionBatch =
      CollResolution.resolved (collNameOf t) := by
  cases t <;> rfl

/-- A document listed by `docsIn` is stored in some collection entry. -/
theorem mem_docsIn (st : MongoState β) (db coll : String) (d : MongoDoc β)
    (hd : d ∈ st.docsIn db coll) : ∃ p ∈ st.colls, d ∈ p.2 := by
  unfold MongoState.docsIn at hd
  rcases hfind : st.colls.find? (fun p => p.1 == (db, coll)) with _ | p
  · rw [hfind] at hd
    simp at hd
  · rw [hfind] at hd
    exact ⟨p, List.mem_of_find?_eq_some hfind, hd⟩

/-- In a state populated solely through `create`, no stored document matches
the `\x7b "_id": "$exists" \x7d` filter. -/
theorem filter_eq_nil_of_createdOnly (st : MongoState β) (hco : CreatedOnly st)
    (db coll : String) :
    (st.docsIn db coll).filter filterMatches = [] := by
  rw [List.filter_eq_nil_iff]
  intro d hd
  obtain ⟨p, hp, hdp⟩ := mem_docsIn st db coll d hd
  have hobj := hco p hp d hdp
  cases hid : d.docId with
  | objectId n => simp [filterMatches, hid]
  | strId s => rw [hid] at hobj; simp [BsonId.isObjectId] at hobj

/-! ### Claim theorems (continued) -/

/-- C3 (implicit behaviour of the code): the filter built by `find_all`
matches only documents whose `_id` equals the literal string `"$exists"`;
since `create` inserts documents with driver-generated ObjectIds, on every
backend state populated solely through `create`, a successful `find_all`
returns the empty sequence. -/
theorem c3_findAll_empty_on_created_states (α β : Type) (b : MongoDBBackend)
    (env : Driver) (t : ArchiveRecordType) (deser : β → Except String α)
    (st : MongoState β) (hco : CreatedOnly st) (l : List α)
    (hok : b.findAll env t deser st = CallResult.ok l) : l = [] := by
  have hfilter := filter_eq_nil_of_createdOnly st hco
  cases t <;>
  · simp only [MongoDBBackend.findAll, ArchiveRecordType.isAccount,
      ArchiveRecordType.isTransactionBatch, resolveCollection,
      if_true, if_false, Bool.false_eq_true, ite_true, ite_false] at hok
    rw [hfilter] at hok
    split_ifs at hok <;> simp_all [collectDeser]

/-- `MongoState` with two ObjectId-keyed account documents. -/
def stW3 : MongoState Nat :=
  ⟨2, [(("lasr_archive", "accounts"),
        [⟨BsonId.objectId 0, 5⟩, ⟨BsonId.objectId 1, 6⟩])]⟩

/-- Witness for C3: a concrete create-populated state on which a successful
`find_all` returns `[]`. -/
theorem c3_witness : CreatedOnly stW3 ∧ ([] : List Nat) = [] :=
  ⟨by decide,
   c3_findAll_empty_on_created_states Nat Nat backendW okDriver
     ArchiveRecordType.Account (fun n => Except.ok n) stW3 (by decide) []
     (by decide)⟩

/-- C7: on every connection string the driver cannot parse, `create` and
`find_all` return (rather than panic or succeed) an error chain whose
context names the parse phase — "Failed to parse MongoDB URI: '<uri>'" —
wrapped by the store-level context; the error is produced by the single
parse attempt, with no retry. -/
theorem c7_unparseable_uri (α β : Type) (s : ArchiveStore) (env : Driver)
    (t : ArchiveRecordType) (ser : α → β) (rec : α)
    (deser : β → Except String α) (st : MongoState β)
    (h : env.parseOk s.uri = false) :
    (s.create env t ser rec st).1 =
      CallResult.err ⟨["Creating new MongoDB blob.",
        "Failed to parse MongoDB URI: '" ++ s.uri ++ "'"],
        "mongodb: invalid connection string"⟩ ∧
    (s.findAll env t deser st).1 =
      CallResult.err ⟨["Retrieving blobs from MongoDB",
        "Failed to parse MongoDB URI: '" ++ s.uri ++ "'"],
        "mongodb: invalid connection string"⟩ := by
  obtain ⟨u, bk, d⟩ := s
  cases bk
  simp only at h
  constructor <;>
    simp [ArchiveStore.create, ArchiveStore.findAll, ArchiveStore.mkMongoBackend,
      MongoDBBackend.create, MongoDBBackend.findAll, h, CallResult.context]

/-- A concrete store whose (empty) URI the driver rejects. -/
def storeW : ArchiveStore := ⟨"", ArchiveBackends.MongoDB, "lasr_archive"⟩

/-- Witness for C7: the empty connection string yields the parse-phase error
chain from both `create` and `find_all`. -/
theorem c7_witness :
    failDriver.parseOk storeW.uri = false ∧
    ((storeW.create failDriver ArchiveRecordType.Account (fun n : Nat => n)
        42 (emptyMongoState Nat)).1 =
      CallResult.err ⟨["Creating new MongoDB blob.",
        "Failed to parse MongoDB URI: '" ++ storeW.uri ++ "'"],
        "mongodb: invalid connection string"⟩ ∧
    (storeW.findAll failDriver ArchiveRecordType.Account
        (fun n : Nat => Except.ok n) (emptyMongoState Nat)).1 =
      CallResult.err ⟨["Retrieving blobs from MongoDB",
        "Failed to parse MongoDB URI: '" ++ storeW.uri ++ "'"],
        "mongodb: invalid connection string"⟩) :=
  ⟨rfl,
   c7_unparseable_uri Nat Nat storeW failDriver ArchiveRecordType.Account
     (fun n => n) 42 (fun n => Except.ok n) (emptyMongoState Nat) rfl⟩

/-- Inversion of a successful `create`: the resulting state stores the
serialised record, under a fresh ObjectId, in the collection the record
type resolves to. -/
theorem create_ok_state (b : MongoDBBackend) (env : Driver)
    (t : ArchiveRecordType) (ser : α → β) (rec : α) (st : MongoState β)
    (i : String) (st' : MongoState β)
    (h : b.create env t ser rec st = CallResult.ok (i, st')) :
    st' = st.insertDoc b.datastore (collNameOf t)
      ⟨BsonId.objectId st.nextObjectId, ser rec⟩ := by
  cases t <;>
  · simp only [MongoDBBackend.create, ArchiveRecordType.isAccount,
      ArchiveRecordType.isTransactionBatch, resolveCollection,
      if_true, if_false, Bool.false_eq_true, ite_true, ite_false] at h
    split_ifs at h <;> simp_all [collNameOf]

/-- `addDoc` on one collection does not change what `find?` sees for a key
with a different collection name. -/
theorem find?_addDoc_ne (db db' coll coll' : String) (d : MongoDoc β)
    (h : coll ≠ coll') (l : List ((String × String) × List (MongoDoc β))) :
    (addDoc db coll d l).find? (fun p => p.1 == (db', coll')) =
      l.find? (fun p => p.1 == (db', coll')) := by
  have hkey : (((db, coll) : String × String) == (db', coll')) = false := by
    simp [h]
  induction l with
  | nil => simp [addDoc, List.find?, hkey]
  | cons hd tl ih =>
      obtain ⟨k, ds⟩ := hd
      by_cases hk : k == (db, coll)
      · have hkeq : k = (db, coll) := by simpa using hk
        simp [addDoc, hk, List.find?, hkeq, hkey]
      · simp only [addDoc, hk, if_false, Bool.false_eq_true, ite_false]
        rcases hkp : (k == (db', coll')) with _ | _
        · simp [List.find?, hkp, ih]
        · simp [List.find?, hkp]

/-- Inserting into one collection leaves the documents of every collection
with a different name unchanged. -/
theorem docsIn_insertDoc_ne (st : MongoState β) (db db' coll coll' : String)
    (d : MongoDoc β) (h : coll ≠ coll') :
    (st.insertDoc db coll d).docsIn db' coll' = st.docsIn db' coll' := by
  unfold MongoState.insertDoc MongoState.docsIn
  rw [find?_addDoc_ne db db' coll coll' d h]

/-- `find_all` depends on the backend state only through the documents of
the one collection the record type resolves to. -/
theorem findAll_state_congr (b : MongoDBBackend) (env : Driver)
    (t : ArchiveRecordType) (deser : β → Except String α)
    (st st' : MongoState β)
    (h : st'.docsIn b.datastore (collNameOf t) =
      st.docsIn b.datastore (collNameOf t)) :
    b.findAll env t deser st' = b.findAll env t deser st := by
  cases t <;>
  · simp only [MongoDBBackend.findAll, ArchiveRecordType.isAccount,
      ArchiveRecordType.isTransactionBatch, resolveCollection,
      if_true, if_false, Bool.false_eq_true, ite_true, ite_false]
    simp only [collNameOf] at h
    rw [h]

/-- C5: isolation: a record created under `Account` is stored in the
"accounts" collection and hence never appears in (indeed, leaves entirely
unchanged) the result of any `find_all(TransactionBatch)`, which reads only
"transaction_data"; and vice versa. -/
theorem c5_isolation (α₁ β₁ α₂ β₂ γ₁ γ₂ : Type)
    (b₁ b₂ b₃ b₄ : MongoDBBackend) (env₁ env₂ env₃ env₄ : Driver)
    (ser₁ : α₁ → β₁) (v₁ : α₁) (st₁ st₁' : MongoState β₁) (i₁ : String)
    (deser₁ : β₁ → Except String γ₁)
    (ser₂ : α₂ → β₂) (v₂ : α₂) (st₂ st₂' : MongoState β₂) (i₂ : String)
    (deser₂ : β₂ → Except String γ₂)
    (h₁ : b₁.create env₁ ArchiveRecordType.Account ser₁ v₁ st₁ =
      CallResult.ok (i₁, st₁'))
    (h₂ : b₂.create env₂ ArchiveRecordType.TransactionBatch ser₂ v₂ st₂ =
      CallResult.ok (i₂, st₂')) :
    b₃.findAll env₃ ArchiveRecordType.TransactionBatch deser₁ st₁' =
      b₃.findAll env₃ ArchiveRecordType.TransactionBatch deser₁ st₁ ∧
    b₄.findAll env₄ ArchiveRecordType.Account deser₂ st₂' =
      b₄.findAll env₄ ArchiveRecordType.Account deser₂ st₂ := by
  have e₁ := create_ok_state b₁ env₁ ArchiveRecordType.Account ser₁ v₁ st₁
    i₁ st₁' h₁
  have e₂ := create_ok_state b₂ env₂ ArchiveRecordType.TransactionBatch ser₂
    v₂ st₂ i₂ st₂' h₂
  constructor
  · apply findAll_state_congr
    rw [e₁]
    exact docsIn_insertDoc_ne st₁ b₁.datastore b₃.datastore
      (collNameOf ArchiveRecordType.Account)
      (collNameOf ArchiveRecordType.TransactionBatch) _ (by decide)
  · apply findAll_state_congr
    rw [e₂]
    exact docsIn_insertDoc_ne st₂ b₂.datastore b₄.datastore
      (collNameOf ArchiveRecordType.TransactionBatch)
      (collNameOf ArchiveRecordType.Account) _ (by decide)

/-- Empty starting state for the C5 witness, Account side. -/
def stC5a : MongoState Nat := emptyMongoState Nat

/-- State after creating one Account record in `stC5a`. -/
def stC5a' : MongoState Nat :=
  stC5a.insertDoc "lasr_archive" "accounts" ⟨BsonId.objectId 0, 11⟩

/-- Empty starting state for the C5 witness, TransactionBatch side. -/
def stC5b : MongoState Nat := emptyMongoState Nat

/-- State after creating one TransactionBatch record in `stC5b`. -/
def stC5b' : MongoState Nat :=
  stC5b.insertDoc "lasr_archive" "transaction_data" ⟨BsonId.objectId 0, 12⟩

/-- Witness for C5: concrete creates under each record type leave the other
record type's `find_all` result unchanged. -/
theorem c5_witness :
    backendW.create okDriver ArchiveRecordType.Account (fun n : Nat => n) 11
        stC5a = CallResult.ok ("ObjectId(\"0\")", stC5a') ∧
    backendW.create okDriver ArchiveRecordType.TransactionBatch
        (fun n : Nat => n) 12 stC5b =
      CallResult.ok ("ObjectId(\"0\")", stC5b') ∧
    backendW.findAll okDriver ArchiveRecordType.TransactionBatch
        (fun n : Nat => Except.ok n) stC5a' =
      backendW.findAll okDriver ArchiveRecordType.TransactionBatch
        (fun n : Nat => Except.ok n) stC5a ∧
    backendW.findAll okDriver ArchiveRecordType.Account
        (fun n : Nat => Except.ok n) stC5b' =
      backendW.findAll okDriver ArchiveRecordType.Account
        (fun n : Nat => Except.ok n) stC5b :=
  ⟨by decide, by decide,
   c5_isolation Nat Nat Nat Nat Nat Nat backendW backendW backendW backendW
     okDriver okDriver okDriver okDriver (fun n => n) 11 stC5a stC5a'
     "ObjectId(\"0\")" (fun n => Except.ok n) (fun n => n) 12 stC5b stC5b'
     "ObjectId(\"0\")" (fun n => Except.ok n) (by decide) (by decide)⟩

/-- `try_collect` fails outright when any listed document fails to
deserialise. -/
theorem collectDeser_error_of_mem (deser : β → Except String α)
    (l : List (MongoDoc β)) (d : MongoDoc β) (hd : d ∈ l)
    (hfail : deserFails deser d = true) :
    ∃ m, collectDeser deser l = Except.error m := by
  induction l with
  | nil => cases hd
  | cons x xs ih =>
      rcases List.mem_cons.mp hd with heq | hmem
      · subst heq
        unfold deserFails at hfail
        rcases hdes : deser d.body with m | a
        · exact ⟨m, by simp [collectDeser, hdes]⟩
        · rw [hdes] at hfail
          simp at hfail
      · rcases hdes : deser x.body with m | a
        · exact ⟨m, by simp [collectDeser, hdes]⟩
        · obtain ⟨m, hm⟩ := ih hmem
          exact ⟨m, by simp [collectDeser, hdes, hm]⟩

/-- C8: `find_all` is all-or-nothing: whenever deserialising any one of the
queried records fails, the whole call returns an error — never a partial
list of already-collected records. -/
theorem c8_all_or_nothing (α β : Type) (b : MongoDBBackend) (env : Driver)
    (t : ArchiveRecordType) (deser : β → Except String α) (st : MongoState β)
    (h : ∃ d ∈ queriedDocs b t st, deserFails deser d = true) :
    ∃ e, b.findAll env t deser st = CallResult.err e := by
  obtain ⟨d, hd, hfail⟩ := h
  simp only [queriedDocs] at hd
  obtain ⟨m, hm⟩ := collectDeser_error_of_mem deser _ d hd hfail
  cases t <;>
  · simp only [MongoDBBackend.findAll, ArchiveRecordType.isAccount,
      ArchiveRecordType.isTransactionBatch, resolveCollection,
      if_true, if_false, Bool.false_eq_true, ite_true, ite_false]
    simp only [collNameOf] at hm
    split_ifs <;> first
      | exact ⟨_, rfl⟩
      | (rw [hm]; exact ⟨_, rfl⟩)

/-- A state holding one account document whose `_id` is the BSON string
`"$exists"`, so that the find filter matches it. -/
def stC8 : MongoState Nat :=
  ⟨0, [(("lasr_archive", "accounts"), [⟨BsonId.strId "$exists", 3⟩])]⟩

/-- A deserialiser that rejects every document body. -/
def badDeser : Nat → Except String Nat := fun _ => Except.error "bad record"

/-- Witness for C8: a queried record whose deserialisation fails makes the
whole `find_all` call return an error. -/
theorem c8_witness :
    (∃ d ∈ queriedDocs backendW ArchiveRecordType.Account stC8,
      deserFails badDeser d = true) ∧
    ∃ e, backendW.findAll okDriver ArchiveRecordType.Account badDeser stC8 =
      CallResult.err e :=
  ⟨⟨⟨BsonId.strId "$exists", 3⟩, by decide, by decide⟩,
   c8_all_or_nothing Nat Nat backendW okDriver ArchiveRecordType.Account
     badDeser stC8 ⟨⟨BsonId.strId "$exists", 3⟩, by decide, by decide⟩⟩

/-- A state whose "accounts" collection holds one document, stored under a
driver-generated ObjectId (as `create` stores them). -/
def stOneAccount : MongoState Nat :=
  ⟨1, [(("lasr_archive", "accounts"), [⟨BsonId.objectId 0, 7⟩])]⟩

/-- C1 (code evaluated at the failing input): the query `find_all` issues is
not equivalent to an unconditional select-all: on a state whose "accounts"
collection stores one record under a driver-generated ObjectId, a fully
successful `find_all(Account)` returns the empty sequence, because the
`\x7b "_id": "$exists" \x7d` filter is an equality match against the literal
string `"$exists"`. -/
theorem c1_findAll_not_select_all :
    stOneAccount.docsIn "lasr_archive" "accounts" =
      [⟨BsonId.objectId 0, 7⟩] ∧
    backendW.findAll okDriver ArchiveRecordType.Account
        (fun n : Nat => Except.ok n) stOneAccount =
      CallResult.ok ([] : List Nat) := by
  constructor
  · decide
  · decide

/-- State after the C2 create. -/
def stC2' : MongoState Nat :=
  (emptyMongoState Nat).insertDoc "lasr_archive" "accounts"
    ⟨BsonId.objectId 0, 42⟩

/-- C2 (code evaluated at the failing input): a successful
`create(Account, 42)` followed by `find_all(Account)` with the matching
payload type yields the empty sequence — the created value 42 is not
contained in the result, so the round-trip property fails. -/
theorem c2_roundtrip_fails :
    backendW.create okDriver ArchiveRecordType.Account (fun n : Nat => n) 42
        (emptyMongoState Nat) =
      CallResult.ok ("ObjectId(\"0\")", stC2') ∧
    backendW.findAll okDriver ArchiveRecordType.Account
        (fun n : Nat => Except.ok n) stC2' =
      CallResult.ok ([] : List Nat) ∧
    (42 : Nat) ∉ ([] : List Nat) := by
  refine ⟨by decide, by decide, by decide⟩

/-! ### Theorems -/

/-- C6: the record-type → collection mapping is fixed: `Account` resolves to
the collection named "accounts" and `TransactionBatch` to the collection
named "transaction_data", and every record type resolves to one of these
two names, so `create` and `find_all` (which both resolve collections
through this chain) never use another collection name. -/
theorem c6_collection_mapping :
    resolveCollection ArchiveRecordType.Account.isAccount
        ArchiveRecordType.Account.isTransactionBatch =
      CollResolution.resolved "accounts" ∧
    resolveCollection ArchiveRecordType.TransactionBatch.isAccount
        ArchiveRecordType.TransactionBatch.isTransactionBatch =
      CollResolution.resolved "transaction_data" ∧
    ∀ t : ArchiveRecordType,
      resolveCollection t.isAccount t.isTransactionBatch =
          CollResolution.resolved "accounts" ∨
        resolveCollection t.isAccount t.isTransactionBatch =
          CollResolution.resolved "transaction_data" := by
  refine ⟨rfl, rfl, ?_⟩
  intro t
  cases t
  · exact Or.inl rfl
  · exact Or.inr rfl

/-- C4 (code evaluated at the failing input): when both pattern tests of the
collection-resolution chain fail — i.e. an unrecognized record-type variant
reaches the step — the code takes the `panic!` branch, terminating the
process with "Invalid archive record type" instead of returning a structural
error to the caller. -/
theorem c4_fallback_panics :
    resolveCollection false false =
      CollResolution.panicked "Invalid archive record type" := rfl

/-- C9: frame/immutability: after any `create` or `find_all` call the
store's `uri`, `backend` and `datastore` fields are unchanged; each call
builds a fresh `MongoDBBackend` adapter whose `uri` and `datastore` are
copies of the store's fields, and the call's result is exactly the fresh
adapter's result wrapped with the store-level context (no adapter state
persists across calls). -/
theorem c9_frame (α β : Type) (s : ArchiveStore) (env : Driver)
    (t : ArchiveRecordType) (ser : α → β) (rec : α)
    (deser : β → Except String α) (st : MongoState β) :
    (s.create env t ser rec st).2 = s ∧
    (s.findAll env t deser st).2 = s ∧
    s.mkMongoBackend.uri = s.uri ∧
    s.mkMongoBackend.datastore = s.datastore ∧
    (s.create env t ser rec st).1 =
      (s.mkMongoBackend.create env t ser rec st).context
        "Creating new MongoDB blob." ∧
    (s.findAll env t deser st).1 =
      (s.mkMongoBackend.findAll env t deser st).context
        "Retrieving blobs from MongoDB" := by
  obtain ⟨u, bk, d⟩ := s
  cases bk
  exact ⟨rfl, rfl, rfl, rfl, rfl, rfl⟩

/-- C10: the display formatting of an `ArchiveStore` is exactly
`"URI: <uri>, Backend: <backend>, Datastore: <datastore>"`: it contains the
configured URI, the backend name and the datastore name verbatim, with no
redaction or masking of any part of the URI. -/
theorem c10_display_unredacted (s : ArchiveStore) :
    displayArchiveStore s =
      "URI: " ++ s.uri ++ ", Backend: " ++ displayBackends s.backend ++
        ", Datastore: " ++ s.datastore ∧
    (∃ p q, displayArchiveStore s = p ++ (s.uri ++ q)) ∧
    (∃ p q, displayArchiveStore s = p ++ (displayBackends s.backend ++ q)) ∧
    (∃ p, displayArchiveStore s = p ++ s.datastore) ∧
    displayBackends ArchiveBackends.MongoDB = "MongoDB" := by
  refine ⟨rfl,
    ⟨"URI: ",
     ", Backend: " ++ displayBackends s.backend ++ ", Datastore: " ++
       s.datastore, ?_⟩,
    ⟨"URI: " ++ s.uri ++ ", Backend: ",
     ", Datastore: " ++ s.datastore, ?_⟩,
    ⟨"URI: " ++ s.uri ++ ", Backend: " ++ displayBackends s.backend ++
       ", Datastore: ", rfl⟩,
    rfl⟩ <;>
  simp [displayArchiveStore, String.append_assoc]

end LasrArchive
